import Mathlib

/-!
# Verification of the Ethereum bulk-transfer script

Shallow embedding of `src/transfer_eth.py` and proofs about its per-account
transfer pipeline, fee estimation, retry policy, and summary aggregation.

Modelling conventions:
* Wei amounts, gas units and fees are `Nat` (Python's arbitrary-precision
  nonnegative integers on these code paths).
* The remote node (web3 collaborator) is an explicit environment value: each
  read the script performs is a field of `Env` / `FeeEnv`.  A fee query is
  time-sensitive, and `send_eth` issues two of them, so the environment holds
  two fee snapshots, one per query.
* A Python exception raised by a remote call is an `Except.error`; operations
  the script calls at most once and that the claims need to fail are modelled
  as invocation-indexed functions `Nat → Except RpcError β`.
* `GAS_BUFFER_MULTIPLIER` is a Python float; it is modelled as the exact
  rational `gasBufferNum / gasBufferDen`, and Python's truncating `int()`
  conversion of the nonnegative product becomes `Nat` floor division.
-/

namespace TransferEth

/-- Errors a remote call can raise.  `transient` stands for timeouts and
"not found yet" races, `fatalValidation` for chain-level validation or
malformed-transaction rejections.  The script's `retry` catches the Python
class `Exception`, which covers both. -/
inductive RpcError where
  | transient
  | fatalValidation
deriving DecidableEq, Repr

/-- Backoff sleep cap in seconds: `min(2 ** attempt, 30)` in `retry`
(src/transfer_eth.py line 113). -/
def sleepCap : Nat := 30

/-- Loop body of `retry` (src/transfer_eth.py lines 106-118), from loop
counter `attempt` on, with `fuel = retries - attempt` further iterations
allowed after the current one (the Python loop is
`for attempt in range(retries + 1)`, so `attempt < retries` holds exactly
when `fuel > 0`).  `f i` is the result of the `(i+1)`-th invocation of the
wrapped operation.  Returns the final result, the number of invocations
made, and the list of backoff sleeps performed (in seconds). -/
def retryGo (f : Nat → Except ε α) : Nat → Nat → Except ε α × Nat × List Nat
  | 0, attempt =>
    match f attempt with
    | Except.ok a => (Except.ok a, 1, [])
    | Except.error e => (Except.error e, 1, [])
  | fuel + 1, attempt =>
    match f attempt with
    | Except.ok a => (Except.ok a, 1, [])
    | Except.error _ =>
      let r := retryGo f fuel (attempt + 1)
      (r.1, r.2.1 + 1, min (2 ^ attempt) sleepCap :: r.2.2)

/-- `retry(fn, retries=RETRY_LIMIT)` from src/transfer_eth.py lines 106-118:
`for attempt in range(retries + 1)` starting at `attempt = 0`. -/
def retry (f : Nat → Except ε α) (retries : Nat) : Except ε α × Nat × List Nat :=
  retryGo f retries 0

/-- If the wrapped operation fails on the `k` invocations starting at loop
counter `attempt` and succeeds on the next one, while the budget suffices,
the loop returns that success after `k` backoff sleeps. -/
theorem retryGo_ok (f : Nat → Except ε α) (a : α) :
    ∀ k fuel attempt : Nat, k ≤ fuel →
    (∀ i, i < k → ∃ e, f (attempt + i) = Except.error e) →
    f (attempt + k) = Except.ok a →
    retryGo f fuel attempt =
      (Except.ok a, k + 1, (List.range k).map fun i => min (2 ^ (attempt + i)) sleepCap) := by
  intro k
  induction k with
  | zero =>
    intro fuel attempt hle herr hok
    rw [Nat.add_zero] at hok
    cases fuel with
    | zero => unfold retryGo; simp [hok]
    | succ m => unfold retryGo; simp [hok]
  | succ k ih =>
    intro fuel attempt hle herr hok
    obtain ⟨e, he⟩ := herr 0 (Nat.succ_pos k)
    rw [Nat.add_zero] at he
    cases fuel with
    | zero => omega
    | succ m =>
      have ihres := ih m (attempt + 1) (by omega)
        (fun i hi => by
          obtain ⟨e2, he2⟩ := herr (i + 1) (by omega)
          exact ⟨e2, by rw [show attempt + 1 + i = attempt + (i + 1) by omega]; exact he2⟩)
        (by rw [show attempt + 1 + k = attempt + (k + 1) by omega]; exact hok)
      unfold retryGo
      rw [he]
      simp only [ihres]
      refine Prod.ext rfl (Prod.ext rfl ?_)
      simp only [List.range_succ_eq_map, List.map_cons, List.map_map]
      rw [Nat.add_zero]
      refine congrArg (fun l => min (2 ^ attempt) sleepCap :: l) ?_
      refine List.map_congr_left ?_
      intro i _
      simp only [Function.comp]
      rw [show attempt + 1 + i = attempt + (i + 1) by omega]

/-- If the wrapped operation fails on every remaining invocation, the loop
makes all `fuel + 1` of them with `fuel` backoff sleeps and propagates the
last error. -/
theorem retryGo_fail (f : Nat → Except ε α) (errAt : Nat → ε) :
    ∀ fuel attempt : Nat,
    (∀ i, i ≤ fuel → f (attempt + i) = Except.error (errAt (attempt + i))) →
    retryGo f fuel attempt =
      (Except.error (errAt (attempt + fuel)), fuel + 1,
        (List.range fuel).map fun i => min (2 ^ (attempt + i)) sleepCap) := by
  intro fuel
  induction fuel with
  | zero =>
    intro attempt herr
    have he := herr 0 (Nat.le_refl 0)
    rw [Nat.add_zero] at he
    unfold retryGo
    simp [he]
  | succ m ih =>
    intro attempt herr
    have he := herr 0 (Nat.zero_le _)
    rw [Nat.add_zero] at he
    have ihres := ih (attempt + 1)
      (fun i hi => by
        have h2 := herr (i + 1) (by omega)
        rw [show attempt + 1 + i = attempt + (i + 1) by omega]
        exact h2)
    unfold retryGo
    rw [he]
    simp only [ihres]
    rw [show attempt + 1 + m = attempt + (m + 1) by omega]
    refine Prod.ext rfl (Prod.ext rfl ?_)
    simp only [List.range_succ_eq_map, List.map_cons, List.map_map]
    rw [Nat.add_zero]
    refine congrArg (fun l => min (2 ^ attempt) sleepCap :: l) ?_
    refine List.map_congr_left ?_
    intro i _
    simp only [Function.comp]
    rw [show attempt + 1 + i = attempt + (i + 1) by omega]

/-- `retry`-level success run: failures on the first `k ≤ retries`
invocations, then a success, give `k + 1` invocations and the sleep
schedule `min(2^i, cap)` for `i = 0 .. k-1`. -/
theorem retry_ok_run (f : Nat → Except ε α) (retries k : Nat) (a : α)
    (hk : k ≤ retries)
    (herr : ∀ i, i < k → ∃ e, f i = Except.error e)
    (hok : f k = Except.ok a) :
    retry f retries =
      (Except.ok a, k + 1, (List.range k).map fun i => min (2 ^ i) sleepCap) := by
  have h := retryGo_ok f a k retries 0 hk
    (fun i hi => by simpa using herr i hi)
    (by simpa using hok)
  simpa [retry] using h

/-- `retry`-level exhaustion run: failures on every invocation give
`retries + 1` invocations, the full sleep schedule, and the last error. -/
theorem retry_fail_run (f : Nat → Except ε α) (retries : Nat) (errAt : Nat → ε)
    (herr : ∀ i, i ≤ retries → f i = Except.error (errAt i)) :
    retry f retries =
      (Except.error (errAt retries), retries + 1,
        (List.range retries).map fun i => min (2 ^ i) sleepCap) := by
  have h := retryGo_fail f errAt retries 0
    (fun i hi => by simpa using herr i hi)
  simpa [retry] using h

/-- Configuration surface read from the process environment
(src/transfer_eth.py lines 43-55).  Only the options the pipeline logic
reads are modelled; the float `GAS_BUFFER_MULTIPLIER` is the exact rational
`gasBufferNum / gasBufferDen`. -/
structure Config where
  gasPriceGwei : Nat
  useEip1559 : Bool
  retryLimit : Nat
  gasBufferNum : Nat
  gasBufferDen : Nat
  priorityFeeGwei : Nat
  dryRun : Bool
deriving Repr

/-- One snapshot of the node's fee data, as visible to a single fee query.
`none` models the corresponding read raising an exception (or, for
`maxPriorityFee`, the attribute being absent — both take the same fallback
in the script). -/
structure FeeEnv where
  feeHistoryBase : Option Nat
  maxPriorityFee : Option Nat
  networkGasPrice : Nat
deriving DecidableEq, Repr

/-- The remote world one `send_eth` run observes.  The reads the script
wraps in `retry` (balance, gas estimate, nonce) are modelled at their
successful values; `send_eth` issues two fee queries, which see `feeEnv1`
and `feeEnv2` respectively; `broadcast i` is the result of the `(i+1)`-th
invocation of `send_raw_transaction`, were it to be invoked that often. -/
structure Env where
  balance : Nat
  estimateGas : Nat
  feeEnv1 : FeeEnv
  feeEnv2 : FeeEnv
  nonce : Nat
  chainId : Nat
  broadcast : Nat → Except RpcError Nat

/-- `web3.to_wei(n, "gwei")`. -/
def gwei (n : Nat) : Nat := n * 1000000000

/-- `get_legacy_gas_price` (src/transfer_eth.py lines 121-124): the
configured fixed price when `GAS_PRICE_GWEI > 0`, else the node's current
gas price. -/
def get_legacy_gas_price (cfg : Config) (fe : FeeEnv) : Nat :=
  if cfg.gasPriceGwei > 0 then gwei cfg.gasPriceGwei else fe.networkGasPrice

/-- The dictionary returned by `get_eip1559_fees`. -/
structure Fees where
  maxFeePerGas : Nat
  maxPriorityFeePerGas : Nat
deriving DecidableEq, Repr

/-- `get_eip1559_fees` (src/transfer_eth.py lines 127-145).  A failing
fee-history read falls back to `web3.eth.gas_price` (line 133); a failing or
absent priority-fee read falls back to `web3.to_wei(PRIORITY_FEE_GWEI, "gwei")`. -/
def get_eip1559_fees (cfg : Config) (fe : FeeEnv) : Fees :=
  let base_fee :=
    match fe.feeHistoryBase with
    | some b => b
    | none => fe.networkGasPrice
  let priority_fee :=
    match fe.maxPriorityFee with
    | some p => p
    | none => gwei cfg.priorityFeeGwei
  { maxFeePerGas := base_fee * 2 + priority_fee, maxPriorityFeePerGas := priority_fee }

/-- The gas limit computed inside `estimate_fee` (src/transfer_eth.py
line 152): `max(int(base_gas * GAS_BUFFER_MULTIPLIER), 21_000)`, with the
truncating float product modelled as exact rational product and floor
division. -/
def buffered_gas_limit (cfg : Config) (base_gas : Nat) : Nat :=
  max (base_gas * cfg.gasBufferNum / cfg.gasBufferDen) 21000

/-- The per-gas price a fee snapshot yields in the active fee mode: the
common factor of `estimate_fee`'s two branches (src/transfer_eth.py
lines 154-159). -/
def per_gas_fee (cfg : Config) (fe : FeeEnv) : Nat :=
  if cfg.useEip1559 then (get_eip1559_fees cfg fe).maxFeePerGas
  else get_legacy_gas_price cfg fe

/-- `estimate_fee` (src/transfer_eth.py lines 148-159): returns
`(gas_limit, total_fee_wei)`, querying the fee snapshot `fe`. -/
def estimate_fee (cfg : Config) (base_gas : Nat) (fe : FeeEnv) : Nat × Nat :=
  let gas_limit := buffered_gas_limit cfg base_gas
  if cfg.useEip1559 then
    (gas_limit, gas_limit * (get_eip1559_fees cfg fe).maxFeePerGas)
  else
    (gas_limit, gas_limit * get_legacy_gas_price cfg fe)

/-- The transaction dictionary built at src/transfer_eth.py lines 182-190.
The fixed recipient address string is elided; exactly one of the fee-field
groups is populated, matching `tx.update(...)` on line 190. -/
structure Tx where
  nonce : Nat
  value : Nat
  gas : Nat
  chainId : Nat
  maxFeePerGas : Option Nat
  maxPriorityFeePerGas : Option Nat
  gasPrice : Option Nat
deriving DecidableEq, Repr

/-- Reason a run ends without a transfer attempt. -/
inductive SkipReason where
  | zeroBalance
  | insufficientFunds
deriving DecidableEq, Repr

/-- Outcome of one `send_eth` run, read off the branch the code takes
(each branch logs and returns).  `failed` is a raised exception caught by
the handlers at src/transfer_eth.py lines 212-215. -/
inductive Outcome where
  | sent (txHash value : Nat)
  | skipped (reason : SkipReason)
  | dryRun (value : Nat)
  | failed
deriving DecidableEq, Repr

/-- Observable side effects of one run: whether `sign_transaction` was
called, how many `send_raw_transaction` invocations were made, and the
transaction dictionary if one was built. -/
structure RunTrace where
  signCalled : Bool
  broadcastCalls : Nat
  tx : Option Tx
deriving DecidableEq, Repr

/-- The `total_fee_wei` that `send_eth` compares against the balance
(src/transfer_eth.py line 174): the second component of the `estimate_fee`
result, queried against the run's first fee snapshot. -/
def est_fee_of (cfg : Config) (env : Env) : Nat :=
  (estimate_fee cfg env.estimateGas env.feeEnv1).2

/-- The transaction dictionary `send_eth` builds at src/transfer_eth.py
lines 182-190: `value = balance - est_fee` from the first fee snapshot, the
fee fields from a fresh second fee query (`tx.update(get_eip1559_fees() ...)`
on line 190, which sees `feeEnv2`). -/
def built_tx (cfg : Config) (env : Env) : Tx :=
  if cfg.useEip1559 then
    { nonce := env.nonce, value := env.balance - est_fee_of cfg env,
      gas := (estimate_fee cfg env.estimateGas env.feeEnv1).1, chainId := env.chainId,
      maxFeePerGas := some (get_eip1559_fees cfg env.feeEnv2).maxFeePerGas,
      maxPriorityFeePerGas := some (get_eip1559_fees cfg env.feeEnv2).maxPriorityFeePerGas,
      gasPrice := none }
  else
    { nonce := env.nonce, value := env.balance - est_fee_of cfg env,
      gas := (estimate_fee cfg env.estimateGas env.feeEnv1).1, chainId := env.chainId,
      maxFeePerGas := none, maxPriorityFeePerGas := none,
      gasPrice := some (get_legacy_gas_price cfg env.feeEnv2) }

/-- `send_eth` (src/transfer_eth.py lines 165-215).  The `retry`-wrapped
reads (balance, `estimate_fee`, nonce) are modelled at their successful
environment values (`retry` returns a first-invocation success unchanged);
`send_raw_transaction` is called exactly once, directly, and an error from
it is caught by the surrounding handlers, ending the run as `failed`. -/
def send_eth (cfg : Config) (env : Env) : Outcome × RunTrace :=
  if env.balance = 0 then
    (Outcome.skipped SkipReason.zeroBalance,
      { signCalled := false, broadcastCalls := 0, tx := none })
  else if env.balance ≤ est_fee_of cfg env then
    (Outcome.skipped SkipReason.insufficientFunds,
      { signCalled := false, broadcastCalls := 0, tx := none })
  else if cfg.dryRun then
    (Outcome.dryRun (env.balance - est_fee_of cfg env),
      { signCalled := false, broadcastCalls := 0, tx := some (built_tx cfg env) })
  else
    match env.broadcast 0 with
    | Except.ok h =>
      (Outcome.sent h (env.balance - est_fee_of cfg env),
        { signCalled := true, broadcastCalls := 1, tx := some (built_tx cfg env) })
    | Except.error _ =>
      (Outcome.failed,
        { signCalled := true, broadcastCalls := 1, tx := some (built_tx cfg env) })

/-- Whether a `send_eth` run raises to its caller: the handlers at
src/transfer_eth.py lines 212-215 catch every `Exception` and return
normally, so `future.result()` in `process_wallets` never raises. -/
def send_eth_raises (_cfg : Config) (_env : Env) : Bool :=
  false

/-- The summary counters of `process_wallets` (src/transfer_eth.py
lines 221-241): `success` counts futures whose `result()` does not raise,
`failed` the rest.  The outcome tag of a run is not inspected. -/
def process_wallets (cfg : Config) (envs : List Env) : Nat × Nat :=
  (envs.countP (fun e => send_eth_raises cfg e = false),
   envs.countP (fun e => send_eth_raises cfg e = true))

/-- Spec refinement definition, written from the spec's words for
comparison with `buffered_gas_limit`:
`gasLimit = max(ceil(estimateGasLimit(sender) × bufferMultiplier), protocolMinimumGas)`,
with the exact rational product rounded up. -/
def spec_gas_limit (cfg : Config) (base_gas : Nat) : Nat :=
  max ((base_gas * cfg.gasBufferNum + cfg.gasBufferDen - 1) / cfg.gasBufferDen) 21000

/-- Spec refinement definition, written from the spec's words for
comparison with `get_eip1559_fees`: base fee from the latest block's fee
history, on failure falling back to `legacyGasPrice()`; priority fee from
the collaborator's suggestion, on failure falling back to the configured
default; `maxFeePerUnit = 2 × baseFee + priorityFee`. -/
def spec_get_eip1559_fees (cfg : Config) (fe : FeeEnv) : Fees :=
  let base_fee :=
    match fe.feeHistoryBase with
    | some b => b
    | none => get_legacy_gas_price cfg fe
  let priority_fee :=
    match fe.maxPriorityFee with
    | some p => p
    | none => gwei cfg.priorityFeeGwei
  { maxFeePerGas := 2 * base_fee + priority_fee, maxPriorityFeePerGas := priority_fee }

/-- The gas limit returned by `estimate_fee` is the buffered one in both
fee modes. -/
theorem estimate_fee_fst (cfg : Config) (base_gas : Nat) (fe : FeeEnv) :
    (estimate_fee cfg base_gas fe).1 = buffered_gas_limit cfg base_gas := by
  unfold estimate_fee
  by_cases h : cfg.useEip1559 <;> simp [h]

/-- The estimated total fee is the gas limit times the per-gas price of the
first fee snapshot. -/
theorem est_fee_eq (cfg : Config) (env : Env) :
    est_fee_of cfg env =
      buffered_gas_limit cfg env.estimateGas * per_gas_fee cfg env.feeEnv1 := by
  unfold est_fee_of estimate_fee per_gas_fee
  by_cases h : cfg.useEip1559 <;> simp [h]

/-- The protocol minimum is a lower bound of the buffered gas limit. -/
theorem buffered_gas_limit_ge (cfg : Config) (base_gas : Nat) :
    21000 ≤ buffered_gas_limit cfg base_gas :=
  Nat.le_max_right _ _

section Scenario

/-- Legacy-mode configuration of the concrete scenario: fixed gas price of
10 gwei, retry budget 3, buffer multiplier `1.15 = 115/100`, default
priority fee 2 gwei, live run. -/
def cfgA : Config :=
  { gasPriceGwei := 10, useEip1559 := false, retryLimit := 3,
    gasBufferNum := 115, gasBufferDen := 100, priorityFeeGwei := 2,
    dryRun := false }

/-- Dynamic-fee configuration: no fixed gas price, EIP-1559 mode, same
retry budget and buffer. -/
def cfgE : Config :=
  { gasPriceGwei := 0, useEip1559 := true, retryLimit := 3,
    gasBufferNum := 115, gasBufferDen := 100, priorityFeeGwei := 2,
    dryRun := false }

/-- A fee snapshot whose reads all succeed; irrelevant in legacy mode with
a configured fixed price. -/
def feA : FeeEnv :=
  { feeHistoryBase := some (gwei 8), maxPriorityFee := some (gwei 1),
    networkGasPrice := gwei 7 }

/-- Account A of the concrete scenario: balance 1 ether in wei, gas
estimate 18000 (buffered to 20700, clamped to the 21000 minimum),
broadcast succeeds with hash 1. -/
def envA : Env :=
  { balance := 1000000000000000000, estimateGas := 18000,
    feeEnv1 := feA, feeEnv2 := feA, nonce := 0, chainId := 1,
    broadcast := fun _ => Except.ok 1 }

/-- Account B of the concrete scenario: zero balance. -/
def envB : Env :=
  { balance := 0, estimateGas := 18000,
    feeEnv1 := feA, feeEnv2 := feA, nonce := 0, chainId := 1,
    broadcast := fun _ => Except.ok 2 }

/-- A broadcast collaborator that fails transiently on its first invocation
and would succeed on every later one. -/
def bSeq : Nat → Except RpcError Nat :=
  fun i => if i = 0 then Except.error RpcError.transient else Except.ok 42

/-- Account A's environment with the transiently failing broadcast. -/
def envC : Env :=
  { balance := 1000000000000000000, estimateGas := 18000,
    feeEnv1 := feA, feeEnv2 := feA, nonce := 5, chainId := 1,
    broadcast := bSeq }

/-- An account whose positive balance cannot cover the estimated fee. -/
def envI : Env :=
  { balance := 100, estimateGas := 18000,
    feeEnv1 := feA, feeEnv2 := feA, nonce := 0, chainId := 1,
    broadcast := fun _ => Except.ok 3 }

/-- First fee snapshot of the dynamic-fee run: base fee 10 gwei, suggested
priority fee 1 gwei, so `maxFeePerGas = 21` gwei. -/
def feE1 : FeeEnv :=
  { feeHistoryBase := some (gwei 10), maxPriorityFee := some (gwei 1),
    networkGasPrice := gwei 7 }

/-- Second fee snapshot of the dynamic-fee run, seen by the fee query at
transaction-build time: base fee jumped to 20 gwei, so
`maxFeePerGas = 41` gwei. -/
def feE2 : FeeEnv :=
  { feeHistoryBase := some (gwei 20), maxPriorityFee := some (gwei 1),
    networkGasPrice := gwei 7 }

/-- Dynamic-fee account: balance 1 ether, gas estimate 21000 (buffered to
24150), fee snapshots `feE1` then `feE2`. -/
def envE : Env :=
  { balance := 1000000000000000000, estimateGas := 21000,
    feeEnv1 := feE1, feeEnv2 := feE2, nonce := 7, chainId := 1,
    broadcast := fun _ => Except.ok 9 }

/-- The transaction `send_eth` builds for `envE` under `cfgE`:
`est_fee = 24150 * 21 gwei = 507_150_000_000_000` wei, the fee fields from
the second snapshot. -/
def txE : Tx :=
  { nonce := 7, value := 999492850000000000, gas := 24150, chainId := 1,
    maxFeePerGas := some 41000000000,
    maxPriorityFeePerGas := some 1000000000,
    gasPrice := none }

/-- A fee snapshot whose fee-history read fails while the node's gas price
is 5 gwei: exposes the fallback the code really takes. -/
def feD : FeeEnv :=
  { feeHistoryBase := none, maxPriorityFee := some (gwei 1),
    networkGasPrice := gwei 5 }

/-- An operation failing transiently on its first two invocations, then
succeeding with 7. -/
def fW : Nat → Except RpcError Nat :=
  fun i => if i < 2 then Except.error RpcError.transient else Except.ok 7

/-- An operation failing transiently on every invocation. -/
def gW : Nat → Except RpcError Nat :=
  fun _ => Except.error RpcError.transient

/-- An operation raising a fatal chain-validation error on every
invocation. -/
def fatalF : Nat → Except RpcError Nat :=
  fun _ => Except.error RpcError.fatalValidation

end Scenario

/-- Any run that builds a transaction dictionary built it as `built_tx`,
had a nonzero balance and a covering balance, and — outside dry-run mode —
went on to sign it. -/
theorem tx_some_cases (cfg : Config) (env : Env) (tx : Tx)
    (htx : (send_eth cfg env).2.tx = some tx) :
    tx = built_tx cfg env ∧ env.balance ≠ 0 ∧
    est_fee_of cfg env < env.balance ∧
    (cfg.dryRun = false → (send_eth cfg env).2.signCalled = true) := by
  by_cases hb : env.balance = 0
  · unfold send_eth at htx
    rw [if_pos hb] at htx
    simp at htx
  · by_cases hf : env.balance ≤ est_fee_of cfg env
    · unfold send_eth at htx
      rw [if_neg hb, if_pos hf] at htx
      simp at htx
    · by_cases hd : cfg.dryRun
      · unfold send_eth at htx
        rw [if_neg hb, if_neg hf, if_pos hd] at htx
        simp at htx
        refine ⟨htx.symm, hb, by omega, ?_⟩
        intro hdr
        rw [hd] at hdr
        cases hdr
      · unfold send_eth at htx ⊢
        rw [if_neg hb, if_neg hf, if_neg hd] at htx ⊢
        cases hbr : env.broadcast 0 with
        | ok a =>
          rw [hbr] at htx
          have htx2 : some (built_tx cfg env) = some tx := htx
          injection htx2 with h2
          exact ⟨h2.symm, hb, by omega, fun _ => rfl⟩
        | error e =>
          rw [hbr] at htx
          have htx2 : some (built_tx cfg env) = some tx := htx
          injection htx2 with h2
          exact ⟨h2.symm, hb, by omega, fun _ => rfl⟩

/-- The gas limit and value fields of the built transaction. -/
theorem built_tx_fields (cfg : Config) (env : Env) :
    (built_tx cfg env).gas = buffered_gas_limit cfg env.estimateGas ∧
    (built_tx cfg env).value = env.balance - est_fee_of cfg env := by
  unfold built_tx
  by_cases hm : cfg.useEip1559 <;> simp [hm, estimate_fee_fst]

/-- C1: for every account run that ends `Sent`, the transferred value is
exactly `balance - feeCost` in whole wei — witnessed over `Nat` by the
additive form `balance = value + feeCost` — and the value is strictly
positive. -/
theorem sent_value_exact (cfg : Config) (env : Env) (h v : Nat)
    (hsent : (send_eth cfg env).1 = Outcome.sent h v) :
    v = env.balance - est_fee_of cfg env ∧
    env.balance = v + est_fee_of cfg env ∧ 0 < v := by
  by_cases hb : env.balance = 0
  · unfold send_eth at hsent
    rw [if_pos hb] at hsent
    simp at hsent
  · by_cases hf : env.balance ≤ est_fee_of cfg env
    · unfold send_eth at hsent
      rw [if_neg hb, if_pos hf] at hsent
      simp at hsent
    · by_cases hd : cfg.dryRun
      · unfold send_eth at hsent
        rw [if_neg hb, if_neg hf, if_pos hd] at hsent
        simp at hsent
      · unfold send_eth at hsent
        rw [if_neg hb, if_neg hf, if_neg hd] at hsent
        cases hbr : env.broadcast 0 with
        | ok a =>
          rw [hbr] at hsent
          simp only [Outcome.sent.injEq] at hsent
          obtain ⟨h1, h2⟩ := hsent
          exact ⟨h2.symm, by omega, by omega⟩
        | error e =>
          rw [hbr] at hsent
          simp at hsent

/-- C1 witness: the legacy-mode scenario account ends `Sent` with value
`1 ether - 21000 * 10 gwei`. -/
theorem sent_value_exact_witness :
    999790000000000000 = envA.balance - est_fee_of cfgA envA ∧
    envA.balance = 999790000000000000 + est_fee_of cfgA envA ∧
    0 < 999790000000000000 :=
  sent_value_exact cfgA envA 1 999790000000000000 rfl

/-- C2 counterexample: in the two-account scenario the code's final summary
is the pair `(succeeded, failed) = (2, 0)` — `process_wallets` counts a
future as succeeded whenever `send_eth` does not raise, which it never
does — so no component reports `sent = 1`; the summary does not separate
`Sent` from `Skipped`. -/
theorem scenario_summary_not_tagged :
    process_wallets cfgA [envA, envB] = (2, 0) ∧
    (process_wallets cfgA [envA, envB]).1 ≠ 1 :=
  ⟨rfl, by decide⟩

/-- C2 amended: account A yields `Sent(value = 999_790_000_000_000_000)`,
account B yields `Skipped(ZeroBalance)`, and the run's summary — which only
counts raised exceptions, lumping skipped runs with sent ones — reports
2 succeeded and 0 failed. -/
theorem scenario_outcomes :
    (send_eth cfgA envA).1 = Outcome.sent 1 999790000000000000 ∧
    (send_eth cfgA envB).1 = Outcome.skipped SkipReason.zeroBalance ∧
    process_wallets cfgA [envA, envB] = (2, 0) :=
  ⟨rfl, rfl, rfl⟩

/-- C3: an operation failing on its first `k ≤ retryLimit` invocations and
succeeding on invocation `k+1` makes the retry wrapper return that success
after exactly `k` backoff sleeps of `min(2^i, cap)` seconds, `i = 0..k-1`;
an operation failing on every invocation is invoked exactly
`retryLimit + 1` times and the last error is propagated. -/
theorem retry_policy_spec (f : Nat → Except ε α) (retries k : Nat) (a : α)
    (errAt : Nat → ε) :
    (k ≤ retries → (∀ i, i < k → f i = Except.error (errAt i)) →
      f k = Except.ok a →
      retry f retries =
        (Except.ok a, k + 1, (List.range k).map fun i => min (2 ^ i) sleepCap)) ∧
    ((∀ i, i ≤ retries → f i = Except.error (errAt i)) →
      retry f retries =
        (Except.error (errAt retries), retries + 1,
          (List.range retries).map fun i => min (2 ^ i) sleepCap)) := by
  constructor
  · intro hk herr hok
    exact retry_ok_run f retries k a hk (fun i hi => ⟨errAt i, herr i hi⟩) hok
  · intro herr
    exact retry_fail_run f retries errAt herr

/-- C3 witness: two transient failures then a success give 3 invocations
and sleeps `[1, 2]`; all-failing gives 4 invocations and sleeps
`[1, 2, 4]`. -/
theorem retry_policy_spec_witness :
    retry fW 3 = (Except.ok 7, 3, [1, 2]) ∧
    retry gW 3 = (Except.error RpcError.transient, 4, [1, 2, 4]) :=
  ⟨((retry_policy_spec fW 3 2 7 fun _ => RpcError.transient).1 (by decide)
      (fun i hi => by unfold fW; rw [if_pos hi]) rfl).trans rfl,
   ((retry_policy_spec gW 3 3 7 fun _ => RpcError.transient).2
      (fun i _ => rfl)).trans rfl⟩

/-- C4 counterexample: `retry` catches the Python class `Exception`
uniformly, so an operation that always raises a fatal chain-validation
error is still invoked 4 times with backoff sleeps `[1, 2, 4]` under a
budget of 3 — not propagated immediately with no further attempts and no
sleep, as the claim states. -/
theorem fatal_error_retried :
    retry fatalF 3 = (Except.error RpcError.fatalValidation, 4, [1, 2, 4]) ∧
    ¬ ((retry fatalF 3).2.1 = 1 ∧ (retry fatalF 3).2.2 = ([] : List Nat)) :=
  ⟨rfl, by decide⟩

/-- C4 amended: the retry wrapper performs no error classification: every
error, fatal or transient, is retried through the full budget with the full
backoff schedule before the last error propagates; symmetrically, any
error — of either class — with budget remaining is followed by a backoff
sleep and another invocation. -/
theorem retry_uniform (f : Nat → Except ε α) (errAt : Nat → ε) (retries : Nat) :
    ((∀ i, i ≤ retries → f i = Except.error (errAt i)) →
      retry f retries =
        (Except.error (errAt retries), retries + 1,
          (List.range retries).map fun i => min (2 ^ i) sleepCap)) ∧
    (∀ e a, 0 < retries → f 0 = Except.error e → f 1 = Except.ok a →
      retry f retries = (Except.ok a, 2, [1])) := by
  constructor
  · intro herr
    exact retry_fail_run f retries errAt herr
  · intro e a hr h0 h1
    have h := retry_ok_run f retries 1 a (by omega)
      (fun i hi => ⟨e, by rw [show i = 0 by omega]; exact h0⟩) h1
    exact h.trans rfl

/-- C4 witness: a permanently fatal operation under budget 2 is invoked
3 times with sleeps `[1, 2]`; a fatal-or-transient first failure under
budget 3 is retried and succeeds on the second invocation. -/
theorem retry_uniform_witness :
    retry fatalF 2 = (Except.error RpcError.fatalValidation, 3, [1, 2]) ∧
    retry bSeq 3 = (Except.ok 42, 2, [1]) :=
  ⟨((retry_uniform fatalF (fun _ => RpcError.fatalValidation) 2).1
      (fun i _ => rfl)).trans rfl,
   (retry_uniform bSeq (fun _ => RpcError.transient) 3).2
      RpcError.transient 42 (by decide) rfl rfl⟩

/-- C5 counterexample: `send_raw_transaction` is called directly, not
through `retry`: with retry budget 3 and a broadcast failing only on its
first invocation, the run ends `failed` after exactly one broadcast call —
no second attempt is made — although wrapping the same broadcast in `retry`
would have succeeded on the second invocation after one sleep. -/
theorem broadcast_not_retried_cex :
    (send_eth cfgA envC).1 = Outcome.failed ∧
    (send_eth cfgA envC).2.broadcastCalls = 1 ∧
    ¬ 2 ≤ (send_eth cfgA envC).2.broadcastCalls ∧
    retry envC.broadcast cfgA.retryLimit = (Except.ok 42, 2, [1]) :=
  ⟨rfl, rfl, by decide, rfl⟩

/-- C5 amended: the broadcast step is not wrapped in the retry policy:
every run makes at most one `send_raw_transaction` invocation, and any
broadcast error immediately marks the run `failed` with exactly one
invocation, regardless of remaining retry budget. -/
theorem broadcast_single_attempt (cfg : Config) (env : Env) :
    (send_eth cfg env).2.broadcastCalls ≤ 1 ∧
    (∀ e : RpcError, env.balance ≠ 0 → est_fee_of cfg env < env.balance →
      cfg.dryRun = false → env.broadcast 0 = Except.error e →
      send_eth cfg env =
        (Outcome.failed,
          { signCalled := true, broadcastCalls := 1,
            tx := some (built_tx cfg env) })) := by
  constructor
  · by_cases hb : env.balance = 0
    · simp [send_eth, hb]
    · by_cases hf : env.balance ≤ est_fee_of cfg env
      · simp [send_eth, hb, hf]
      · by_cases hd : cfg.dryRun
        · simp [send_eth, hb, hf, hd]
        · unfold send_eth
          rw [if_neg hb, if_neg hf, if_neg hd]
          cases hbr : env.broadcast 0 with
          | ok a => simp
          | error e => simp
  · intro e hb hf hd he
    unfold send_eth
    rw [if_neg hb, if_neg (show ¬ env.balance ≤ est_fee_of cfg env by omega),
      if_neg (show ¬ cfg.dryRun = true by simp [hd]), he]

/-- C5 witness: the scenario account with the transiently failing broadcast
ends `failed` after its single broadcast invocation. -/
theorem broadcast_single_attempt_witness :
    send_eth cfgA envC =
      (Outcome.failed,
        { signCalled := true, broadcastCalls := 1,
          tx := some (built_tx cfgA envC) }) :=
  (broadcast_single_attempt cfgA envC).2 RpcError.transient (by decide)
    (by decide) rfl rfl

/-- C7 counterexample: with a configured fixed price of 10 gwei, a failed
fee-history read and a network gas price of 5 gwei, the code computes
`maxFeePerGas = 2 * 5 + 1 = 11` gwei — it falls back to the raw network
gas price, not to `legacyGasPrice()`, which would give
`2 * 10 + 1 = 21` gwei as the claim describes. -/
theorem dynamic_fee_fallback_cex :
    (get_eip1559_fees cfgA feD).maxFeePerGas = 11000000000 ∧
    (spec_get_eip1559_fees cfgA feD).maxFeePerGas = 21000000000 ∧
    (get_eip1559_fees cfgA feD).maxFeePerGas ≠
      (spec_get_eip1559_fees cfgA feD).maxFeePerGas :=
  ⟨rfl, rfl, by decide⟩

/-- C7 amended: `maxFeePerGas = 2 * baseFee + priorityFee`, where a failed
fee-history read falls back directly to the node's current gas price
(ignoring the configured fixed price) and a failed or absent priority-fee
read falls back to the configured default; the claim's `legacyGasPrice()`
fallback chain coincides with the code exactly when no nonzero fixed price
is configured or the fee-history read succeeds. -/
theorem dynamic_fees_formula (cfg : Config) (fe : FeeEnv) :
    (get_eip1559_fees cfg fe).maxFeePerGas =
      2 * fe.feeHistoryBase.getD fe.networkGasPrice +
        fe.maxPriorityFee.getD (gwei cfg.priorityFeeGwei) ∧
    (get_eip1559_fees cfg fe).maxPriorityFeePerGas =
      fe.maxPriorityFee.getD (gwei cfg.priorityFeeGwei) ∧
    (cfg.gasPriceGwei = 0 ∨ fe.feeHistoryBase ≠ none →
      get_eip1559_fees cfg fe = spec_get_eip1559_fees cfg fe) := by
  refine ⟨?_, ?_, ?_⟩
  · unfold get_eip1559_fees
    cases hfb : fe.feeHistoryBase <;> cases hpf : fe.maxPriorityFee <;>
      simp [hfb, hpf] <;> omega
  · unfold get_eip1559_fees
    cases hpf : fe.maxPriorityFee <;> simp [hpf]
  · intro hor
    unfold get_eip1559_fees spec_get_eip1559_fees get_legacy_gas_price
    cases hfb : fe.feeHistoryBase with
    | none =>
      rcases hor with h0 | hne
      · simp [h0, Fees.mk.injEq]
        omega
      · exact absurd hfb hne
    | some b =>
      simp [Fees.mk.injEq]
      omega

/-- C7 witness: with no configured fixed price, the code and the claim's
fallback chain agree on the failing-fee-history snapshot. -/
theorem dynamic_fees_formula_witness :
    get_eip1559_fees cfgE feD = spec_get_eip1559_fees cfgE feD :=
  (dynamic_fees_formula cfgE feD).2.2 (Or.inl rfl)

/-- C8 counterexample: the code truncates the buffered gas estimate
(`int(base_gas * GAS_BUFFER_MULTIPLIER)`): for an estimate of 21001 gas
units and multiplier 1.15 the exact product is 24151.15, which the code
floors to 24151 while the claim's `ceil` gives 24152. -/
theorem gas_limit_truncation_cex :
    buffered_gas_limit cfgA 21001 = 24151 ∧
    spec_gas_limit cfgA 21001 = 24152 ∧
    buffered_gas_limit cfgA 21001 ≠ spec_gas_limit cfgA 21001 :=
  ⟨rfl, rfl, by decide⟩

/-- C8 amended: the gas limit equals
`max(floor(estimatedGas × bufferMultiplier), 21000)` — the buffered
estimate is truncated, not rounded up — and is therefore always at least
the protocol minimum of 21000, both as returned by `estimate_fee` and as
placed in every built transaction. -/
theorem gas_limit_floor_and_min (cfg : Config) (env : Env) :
    (estimate_fee cfg env.estimateGas env.feeEnv1).1 =
      max (env.estimateGas * cfg.gasBufferNum / cfg.gasBufferDen) 21000 ∧
    21000 ≤ (estimate_fee cfg env.estimateGas env.feeEnv1).1 ∧
    ∀ tx : Tx, (send_eth cfg env).2.tx = some tx →
      tx.gas = buffered_gas_limit cfg env.estimateGas ∧ 21000 ≤ tx.gas := by
  have h1 := estimate_fee_fst cfg env.estimateGas env.feeEnv1
  refine ⟨by rw [h1]; rfl,
    by rw [h1]; exact buffered_gas_limit_ge cfg env.estimateGas, ?_⟩
  intro tx htx
  obtain ⟨htx2, -, -, -⟩ := tx_some_cases cfg env tx htx
  subst htx2
  have hgas := (built_tx_fields cfg env).1
  exact ⟨hgas, by rw [hgas]; exact buffered_gas_limit_ge cfg env.estimateGas⟩

/-- C8 witness: the dynamic-fee scenario transaction carries the buffered
gas limit 24150, above the protocol minimum. -/
theorem gas_limit_floor_and_min_witness :
    txE.gas = buffered_gas_limit cfgE envE.estimateGas ∧ 21000 ≤ txE.gas :=
  (gas_limit_floor_and_min cfgE envE).2.2 txE rfl

/-- C9: a positive fetched balance at most the estimated fee ends the run
`Skipped(InsufficientFunds)` with no signing and no broadcast call (a zero
balance is skipped one step earlier, before any fee quote exists). -/
theorem insufficient_funds_skip (cfg : Config) (env : Env)
    (hpos : 0 < env.balance)
    (hfee : env.balance ≤ est_fee_of cfg env) :
    send_eth cfg env =
      (Outcome.skipped SkipReason.insufficientFunds,
        { signCalled := false, broadcastCalls := 0, tx := none }) := by
  unfold send_eth
  rw [if_neg (show ¬ env.balance = 0 by omega), if_pos hfee]

/-- C9 witness: a 100-wei account cannot cover the 210000-gwei estimated
fee and is skipped without signing or broadcasting. -/
theorem insufficient_funds_skip_witness :
    send_eth cfgA envI =
      (Outcome.skipped SkipReason.insufficientFunds,
        { signCalled := false, broadcastCalls := 0, tx := none }) :=
  insufficient_funds_skip cfgA envI (by decide) (by decide)

/-- C10: every signed-and-broadcast transaction carries fee fields from the
second, independent fee query (seeing snapshot `feeEnv2`), issued after
`value = balance - estimatedFee` was fixed from the first query (snapshot
`feeEnv1`); hence whenever the second query returns a higher per-gas fee,
the worst-case cost `gasLimit * maxFeePerGas` strictly exceeds
`balance - value`. -/
theorem second_fee_query_used (cfg : Config) (env : Env) (tx : Tx)
    (hdr : cfg.dryRun = false)
    (htx : (send_eth cfg env).2.tx = some tx) :
    (send_eth cfg env).2.signCalled = true ∧
    tx.maxFeePerGas.getD (tx.gasPrice.getD 0) = per_gas_fee cfg env.feeEnv2 ∧
    env.balance - tx.value = tx.gas * per_gas_fee cfg env.feeEnv1 ∧
    (per_gas_fee cfg env.feeEnv1 < per_gas_fee cfg env.feeEnv2 →
      env.balance - tx.value < tx.gas * per_gas_fee cfg env.feeEnv2) := by
  obtain ⟨htx2, hb, hf, hsign⟩ := tx_some_cases cfg env tx htx
  subst htx2
  have hval := (built_tx_fields cfg env).2
  have hgas := (built_tx_fields cfg env).1
  have hsub : env.balance - (env.balance - est_fee_of cfg env) =
      est_fee_of cfg env := by omega
  refine ⟨hsign hdr, ?_, ?_, ?_⟩
  · unfold built_tx per_gas_fee
    by_cases hm : cfg.useEip1559 <;> simp [hm]
  · rw [hval, hgas, hsub, est_fee_eq]
  · intro hlt
    rw [hval, hgas, hsub, est_fee_eq cfg env]
    exact mul_lt_mul_of_pos_left hlt
      (by have := buffered_gas_limit_ge cfg env.estimateGas; omega)

/-- C10 witness: in the dynamic-fee scenario the base fee doubles between
the two queries, and the transaction's worst-case cost exceeds the fee
headroom left by the first estimate. -/
theorem second_fee_query_used_witness :
    envE.balance - txE.value < txE.gas * per_gas_fee cfgE envE.feeEnv2 :=
  (second_fee_query_used cfgE envE txE rfl rfl).2.2.2 (by decide)

end TransferEth
